import Mathlib

/-!
Verification development for the `vox` CLI (natural language → shell command).

Shallow embedding of the three source modules:

* `vox/llm_client.py` — context collection (`_get_context`), response
  sanitization (`_clean_response`), and the HTTP-status classification
  inside `generate_command`.  The network phase is abstracted into an
  `HttpResponse` record holding the status code and the results of the two
  JSON extractions the code performs (`error.message` and
  `choices[0].message.content`); an extraction that raises in Python is
  modelled as `none`.
* `vox/cli.py` — the post-generation confirmation flow of `main`
  (lines 187–210) together with `_get_cmd_file`, `_write_cmd_file`,
  `_has_shell_wrapper`, `_run_directly` and `_clear_lines`.  I/O is
  modelled as an effect trace; the process exit status is an `Int`
  (Python subprocess return codes may be negative).

Characters are modelled at the ASCII level (`Char.toLower`,
`Char.isAlphanum` agree with Python's `str.lower` / `\w` on ASCII input,
which is all the claims exercise).
-/

/-! ### Character classes used by the sanitizer (`llm_client.py`) -/

/-- The backtick character, U+0060. -/
def tickCh : Char := Char.ofNat 96

/-- The newline character. -/
def nlCh : Char := Char.ofNat 10

/-- Membership in Python's `str.strip()` default whitespace set
(space, tab, newline, carriage return, vertical tab, form feed). -/
def wsCh (c : Char) : Bool :=
  c == Char.ofNat 32 || c == Char.ofNat 9 || c == Char.ofNat 10 ||
  c == Char.ofNat 13 || c == Char.ofNat 11 || c == Char.ofNat 12

/-- Python regex `\w` on ASCII: letters, digits, underscore. -/
def wordCh (c : Char) : Bool := c.isAlphanum || c == Char.ofNat 95

/-- Is the backtick character? (used for `str.strip("\x60")`). -/
def tickP (c : Char) : Bool := c == tickCh

/-! ### `_clean_response` (llm_client.py lines 34–38)

```python
def _clean_response(text: str) -> str:
    text = re.sub(r"```[\w]*\n?", "", text)
    text = text.strip("`").strip()
    return text
```
-/

/-- Does the list start with three backticks (the regex can match here)? -/
def isFenceStart : List Char → Bool
  | a :: b :: c :: _ => a == tickCh && b == tickCh && c == tickCh
  | _ => false

/-- Given a list starting with three backticks, compute the remainder after
the whole regex match: the three backticks, the greedy `[\w]*` run, and the
optional `\n`. -/
def afterFence (l : List Char) : List Char :=
  let r := (l.drop 3).dropWhile wordCh
  if r.head? == some nlCh then r.tail else r

/-- Model of `re.sub(r"```[\w]*\n?", "", ·)`: scan left to right, delete each
non-overlapping match, resume after the deleted span.  The `Nat` argument is
fuel; it is initialised with the list length, which always suffices because
every step consumes at least one character. -/
def dropFences : Nat → List Char → List Char
  | 0, l => l
  | _ + 1, [] => []
  | fuel + 1, c :: rest =>
    if isFenceStart (c :: rest) then dropFences fuel (afterFence (c :: rest))
    else c :: dropFences fuel rest

/-- Python `str.strip(chars)` / `str.strip()` (with `p` the set membership):
remove the maximal run satisfying `p` from both ends. -/
def pyStripChars (p : Char → Bool) (l : List Char) : List Char :=
  ((l.dropWhile p).reverse.dropWhile p).reverse

/-- Model of `_clean_response` from `llm_client.py`: remove fenced
code-block markers, then strip backticks from both ends, then strip
whitespace. -/
def clean_response (s : String) : String :=
  (pyStripChars wsCh (pyStripChars tickP (dropFences s.toList.length s.toList))).asString

/-- Python `str.strip()` on its own (used by the confirmation prompt). -/
def pyStrip (s : String) : String := (pyStripChars wsCh s.toList).asString

/-- Python `str.lower()` (ASCII model). -/
def pyLower (s : String) : String := (s.toList.map Char.toLower).asString

/-! ### Substring test (Python `needle in haystack`) -/

/-- Does `needle` occur at the head of `hay`? -/
def leadsWith : List Char → List Char → Bool
  | [], _ => true
  | _ :: _, [] => false
  | a :: as, b :: bs => a == b && leadsWith as bs

/-- Does `needle` occur anywhere in `hay`? -/
def listIn (needle : List Char) : List Char → Bool
  | [] => needle.isEmpty
  | c :: t => leadsWith needle (c :: t) || listIn needle t

/-- Python `needle in hay` for strings. -/
def strIn (needle hay : String) : Bool := listIn needle.toList hay.toList

/-! ### `_get_context` (llm_client.py lines 15–21)

```python
return {
    "os": platform.system() + " " + platform.release(),
    "shell": os.environ.get("SHELL", os.environ.get("COMSPEC", "unknown")),
    "cwd": os.getcwd(),
}
```
-/

structure ExecutionContext where
  os : String
  shell : String
  cwd : String
deriving DecidableEq

/-- The ambient process state `_get_context` reads: the environment map and
the `platform` / `getcwd` values. -/
structure SysEnv where
  envVar : String → Option String
  system : String
  release : String
  cwd : String

/-- Model of `_get_context` as a pure function of the ambient state. -/
def get_context (se : SysEnv) : ExecutionContext :=
  { os := se.system ++ " " ++ se.release
  , shell := (se.envVar "SHELL").getD ((se.envVar "COMSPEC").getD "unknown")
  , cwd := se.cwd }

/-! ### `generate_command` response handling (llm_client.py lines 77–110) -/

/-- The response as `generate_command` observes it after the POST:
the status code, the result of extracting `error.message` from the JSON
body (the code defaults to `""` when the extraction raises — modelled by
`none`), and the result of extracting `choices[0].message.content`
(`none` models `KeyError`/`IndexError`/`TypeError`). -/
structure HttpResponse where
  status : Nat
  errorMessage : Option String
  content : Option String

/-- The error taxonomy of §7 of the spec, as raised by `generate_command`:
`modelNotEntitled`/`invalidCredential` are the two `PermissionError`
messages, the rest are the `RuntimeError` messages. -/
inductive VoxError where
  | modelNotEntitled (model provider : String)
  | invalidCredential
  | rateLimited
  | providerError (status : Nat) (detail : String)
  | malformedResponse
  | emptyResponse
deriving DecidableEq

/-- The 401-body heuristic:
`"model" in err_msg.lower() or "tier" in err_msg.lower()`. -/
def mentions_model_or_tier (errMsg : String) : Bool :=
  strIn "model" (pyLower errMsg) || strIn "tier" (pyLower errMsg)

/-- The post-request portion of `generate_command`: classify the status
code, extract the content, sanitize it, and guard against emptiness. -/
def generate_command (model provider : String) (r : HttpResponse) :
    Except VoxError String :=
  if r.status = 401 then
    if mentions_model_or_tier (r.errorMessage.getD "") then
      .error (.modelNotEntitled model provider)
    else
      .error .invalidCredential
  else if r.status = 429 then
    .error .rateLimited
  else if r.status ≠ 200 then
    .error (.providerError r.status (r.errorMessage.getD ""))
  else
    match r.content with
    | none => .error .malformedResponse
    | some content =>
      let command := clean_response content
      if command = "" then .error .emptyResponse else .ok command

/-! ### `cli.py`: the confirmation flow of `main` (lines 181–210) -/

/-- ANSI constants from `cli.py`. -/
def GREEN : String := "\x1b[32m"

def DIM : String := "\x1b[2m"

def RESET : String := "\x1b[0m"

/-- Observable I/O effects of the confirmation flow.  `out s` is a
`print(s)` (one terminal line); `prompt s` is the `input(s)` prompt;
`clear n` is `_clear_lines(n)`; `cmdFileWrite path content ok` is the
attempt `_write_cmd_file` makes (`ok` records whether the underlying
`open`/`write` succeeded — failures are swallowed); `spawn cmd` is
`subprocess.run(cmd, shell=True)`, which inherits the current working
directory; `histAppend path line` would be an append to a shell history
file — the source never emits it, the constructor exists so that the
history-append claim can be stated over the trace. -/
inductive Effect where
  | out (s : String)
  | prompt (s : String)
  | clear (n : Nat)
  | cmdFileWrite (path content : String) (ok : Bool)
  | spawn (cmd : String)
  | histAppend (path line : String)
deriving DecidableEq, Repr

/-- How the `input()` at the confirmation prompt resolves:
a line of input, or `KeyboardInterrupt`/`EOFError`. -/
inductive PromptResult where
  | answer (raw : String)
  | interrupt
deriving DecidableEq

/-- How `subprocess.run` resolves when reached: normal exit with a return
code, or `KeyboardInterrupt` while waiting. -/
inductive SubprocessOutcome where
  | exited (code : Int)
  | interrupted
deriving DecidableEq

/-- Ambient state the confirmation flow reads.  `tmpIsDir` is
`os.path.isdir("/tmp")`; `ppid` is `os.getppid()`; `writeOk` is whether
the command-file write succeeds; `historyWritable` states that a writable
shell history file is resolvable — the source never consults any such
file, the field exists so the history-append claim can be stated. -/
structure Env where
  tmpIsDir : Bool
  ppid : Nat
  writeOk : Bool
  historyWritable : Bool

/-- Model of `_get_cmd_file`: the temp-file path template applied to
`os.getppid()`. -/
def get_cmd_file (ppid : Nat) : String := "/tmp/.vox_cmd_" ++ toString ppid

/-- Model of `_has_shell_wrapper`: despite its name, the source returns
`os.path.isdir("/tmp")`. -/
def has_shell_wrapper (e : Env) : Bool := e.tmpIsDir

/-- Model of `_write_cmd_file`: one write attempt; `IOError`/`OSError`
swallowed. -/
def write_cmd_file (e : Env) (command : String) : List Effect :=
  [.cmdFileWrite (get_cmd_file e.ppid) command e.writeOk]

/-- Model of `_run_directly`: spawn the subprocess and exit with its
return code; on `KeyboardInterrupt` print a newline and exit 130. -/
def run_directly (command : String) (sp : SubprocessOutcome) :
    List Effect × Int :=
  match sp with
  | .exited c => ([.spawn command], c)
  | .interrupted => ([.spawn command, .out ""], 130)

/-- The answer normalization at the prompt: `input(...).strip().lower()`. -/
def confirmAnswer (raw : String) : String := pyLower (pyStrip raw)

/-- The affirmative test: `answer in ("", "y", "yes")`. -/
def isAffirmative (raw : String) : Bool :=
  confirmAnswer raw == "" || confirmAnswer raw == "y" || confirmAnswer raw == "yes"

/-- The four display lines `main` emits before reading the answer
(cli.py lines 187–192): blank, indented colored command, blank, prompt. -/
def displayLines (command : String) : List Effect :=
  [ .out ""
  , .out ("  " ++ GREEN ++ command ++ RESET)
  , .out ""
  , .prompt ("  " ++ DIM ++ "Run? (Y/n):" ++ RESET ++ " ") ]

/-- The confirmation flow of `main` (cli.py lines 187–210), from the first
`print()` to process exit: returns the effect trace and the exit status. -/
def main_confirm (e : Env) (command : String) (pr : PromptResult)
    (sp : SubprocessOutcome) : List Effect × Int :=
  match pr with
  | .interrupt => (displayLines command ++ [.out ""], 0)
  | .answer raw =>
    if isAffirmative raw then
      if has_shell_wrapper e then
        (displayLines command ++ [.clear 4] ++ write_cmd_file e command, 0)
      else
        let rd := run_directly command sp
        (displayLines command ++ [.clear 4] ++ rd.1, rd.2)
    else
      (displayLines command ++ [.clear 4], 1)

/-- Recognizer for history-append effects (never produced by the code). -/
def isHistAppend : Effect → Bool
  | .histAppend _ _ => true
  | _ => false

/-- Recognizer for line-erasing effects. -/
def isClearEff : Effect → Bool
  | .clear _ => true
  | _ => false

/-! ### Helper lemmas on `dropWhile` and the strip/trim operations -/

theorem dw_all_neg {p : Char → Bool} :
    ∀ {l : List Char}, (∀ c ∈ l, p c = false) → l.dropWhile p = l := by
  intro l h
  cases l with
  | nil => rfl
  | cons a t =>
    have ha : p a = false := h a (List.mem_cons_self a t)
    simp [List.dropWhile_cons, ha]

theorem dw_idem (p : Char → Bool) (l : List Char) :
    (l.dropWhile p).dropWhile p = l.dropWhile p := by
  induction l with
  | nil => rfl
  | cons a t ih =>
    by_cases h : p a
    · simp [List.dropWhile_cons, h, ih]
    · simp [List.dropWhile_cons, h]

theorem dw_len (p : Char → Bool) (l : List Char) :
    (l.dropWhile p).length ≤ l.length := by
  induction l with
  | nil => simp
  | cons a t ih =>
    by_cases h : p a
    · simp only [List.dropWhile_cons, h, if_pos]
      exact Nat.le_trans ih (Nat.le_succ _)
    · simp [List.dropWhile_cons, h]

theorem dw_head_false {p : Char → Bool} {a : Char} {x : List Char}
    (h : (a :: x).dropWhile p = a :: x) : p a = false := by
  by_cases hp : p a
  · exfalso
    rw [List.dropWhile_cons_of_pos hp] at h
    have hlen := congrArg List.length h
    simp only [List.length_cons] at hlen
    have := dw_len p x
    omega
  · simpa using hp

theorem dw_decomp (p : Char → Bool) (l : List Char) :
    ∃ s, s ++ l.dropWhile p = l := by
  induction l with
  | nil => exact ⟨[], rfl⟩
  | cons a t ih =>
    by_cases h : p a
    · obtain ⟨s, hs⟩ := ih
      exact ⟨a :: s, by simp [List.dropWhile_cons, h, hs]⟩
    · exact ⟨[], by simp [List.dropWhile_cons, h]⟩

theorem dw_mem {p : Char → Bool} {c : Char} {l : List Char}
    (h : c ∈ l.dropWhile p) : c ∈ l := by
  obtain ⟨s, hs⟩ := dw_decomp p l
  rw [← hs]
  exact List.mem_append_right s h

theorem strip_all_neg {p : Char → Bool} {l : List Char}
    (h : ∀ c ∈ l, p c = false) : pyStripChars p l = l := by
  unfold pyStripChars
  rw [dw_all_neg h, dw_all_neg (fun c hc => h c (List.mem_reverse.mp hc)),
    List.reverse_reverse]

theorem strip_mem {p : Char → Bool} {c : Char} {l : List Char}
    (h : c ∈ pyStripChars p l) : c ∈ l := by
  unfold pyStripChars at h
  rw [List.mem_reverse] at h
  exact dw_mem (List.mem_reverse.mp (dw_mem h))

theorem strip_dw_fix {p : Char → Bool} {m : List Char}
    (hm : m.dropWhile p = m) : (pyStripChars p m).dropWhile p = pyStripChars p m := by
  obtain ⟨s, hs⟩ := dw_decomp p m.reverse
  have hm2 : m = pyStripChars p m ++ s.reverse := by
    conv_lhs => rw [← List.reverse_reverse m, ← hs]
    simp [pyStripChars, hm]
  cases ht : pyStripChars p m with
  | nil => rfl
  | cons a x =>
    rw [ht] at hm2
    have hhead : p a = false := by
      apply dw_head_false (x := x ++ s.reverse)
      rw [← List.cons_append, ← hm2]
      exact hm
    simp [List.dropWhile_cons, hhead]

theorem strip_idem (p : Char → Bool) (l : List Char) :
    pyStripChars p (pyStripChars p l) = pyStripChars p l := by
  have e1 : pyStripChars p (l.dropWhile p) = pyStripChars p l := by
    unfold pyStripChars; rw [dw_idem]
  have hfix : (pyStripChars p l).dropWhile p = pyStripChars p l := by
    rw [← e1]; exact strip_dw_fix (dw_idem p l)
  have h2 : (pyStripChars p l).reverse = (l.dropWhile p).reverse.dropWhile p := by
    unfold pyStripChars; rw [List.reverse_reverse]
  have hrev : (pyStripChars p l).reverse.dropWhile p = (pyStripChars p l).reverse := by
    rw [h2]; exact dw_idem p _
  calc pyStripChars p (pyStripChars p l)
      = (((pyStripChars p l).dropWhile p).reverse.dropWhile p).reverse := rfl
    _ = ((pyStripChars p l).reverse.dropWhile p).reverse := by rw [hfix]
    _ = ((pyStripChars p l).reverse).reverse := by rw [hrev]
    _ = pyStripChars p l := List.reverse_reverse _

/-! ### Helper lemmas on the fence remover and the sanitizer -/

theorem fence_none {l : List Char} (h : ∀ c ∈ l, tickP c = false) :
    isFenceStart l = false := by
  match l with
  | [] => rfl
  | [a] => rfl
  | [a, b] => rfl
  | a :: b :: c :: t =>
    have ha : (a == tickCh) = false := h a (by simp)
    simp [isFenceStart, ha]

theorem fences_id : ∀ (fuel : Nat) {l : List Char},
    (∀ c ∈ l, tickP c = false) → dropFences fuel l = l := by
  intro fuel
  induction fuel with
  | zero => intro l _; rfl
  | succ n ih =>
    intro l h
    cases l with
    | nil => rfl
    | cons c rest =>
      have hf : isFenceStart (c :: rest) = false := fence_none h
      have hr := ih (l := rest) (fun d hd => h d (List.mem_cons_of_mem c hd))
      simp [dropFences, hf, hr]

theorem toList_asString (l : List Char) : l.asString.toList = l := rfl

theorem asString_toList (s : String) : s.toList.asString = s := rfl

theorem clean_tickfree {s : String} (h : ∀ c ∈ s.toList, tickP c = false) :
    clean_response s = pyStrip s := by
  unfold clean_response pyStrip
  rw [fences_id s.toList.length h, strip_all_neg h]

/-! ### Claim theorems -/

/-- C2 (counterexample): the sanitizer is not idempotent.  On the input
consisting of a space followed by a backtick and `ls`, one application
leaves a leading backtick (backticks are stripped before whitespace), and
a second application removes it. -/
theorem C2_idem_cx :
    clean_response " `ls" = "`ls" ∧
    clean_response (clean_response " `ls") = "ls" ∧
    clean_response (clean_response " `ls") ≠ clean_response " `ls" := by
  decide

/-- C2 (amended): the sanitizer is idempotent on inputs containing no
backtick character, and an already-clean command (backtick-free, with no
surrounding whitespace, so that stripping is the identity) is returned
unchanged. -/
theorem C2_tickfree_idem : ∀ s : String, (∀ c ∈ s.toList, tickP c = false) →
    clean_response (clean_response s) = clean_response s ∧
    (pyStrip s = s → clean_response s = s) := by
  intro s h
  have h1 : clean_response s = pyStrip s := clean_tickfree h
  constructor
  · rw [h1]
    have h2 : ∀ c ∈ (pyStrip s).toList, tickP c = false := by
      intro c hc
      have hc' : c ∈ pyStripChars wsCh s.toList := by
        simpa [pyStrip, toList_asString] using hc
      exact h c (strip_mem hc')
    rw [clean_tickfree h2]
    show (pyStripChars wsCh ((pyStripChars wsCh s.toList).asString.toList)).asString
        = (pyStripChars wsCh s.toList).asString
    rw [toList_asString, strip_idem]
  · intro hfix
    rw [h1, hfix]

/-- C2 (witness): the amended idempotence and clean-command facts applied
to the concrete clean command `ls -la`. -/
theorem C2_tickfree_idem_witness :
    clean_response (clean_response "ls -la") = clean_response "ls -la" ∧
    clean_response "ls -la" = "ls -la" := by
  have h := C2_tickfree_idem "ls -la" (by decide)
  exact ⟨h.1, h.2 (by decide)⟩

/-- C9: sanitizing the fenced input ```` ```bash\nls -la\n``` ```` yields
`ls -la`, and sanitizing the clean input `ls -la` returns it unchanged. -/
theorem C9_sanitizer_examples :
    clean_response "```bash\nls -la\n```" = "ls -la" ∧
    clean_response "ls -la" = "ls -la" := by
  decide

/-- C3: the gateway classification — 401 with an error body mentioning
"model" or "tier" (case-insensitively) raises the model-not-entitled error
naming model and provider; 401 without raises invalid-credential; 429
raises rate-limited; any other non-200 status raises a provider error
carrying the status and the extracted message. -/
theorem C3_status_mapping : ∀ (model provider : String) (r : HttpResponse),
    (r.status = 401 → mentions_model_or_tier (r.errorMessage.getD "") = true →
      generate_command model provider r = .error (.modelNotEntitled model provider)) ∧
    (r.status = 401 → mentions_model_or_tier (r.errorMessage.getD "") = false →
      generate_command model provider r = .error .invalidCredential) ∧
    (r.status = 429 → generate_command model provider r = .error .rateLimited) ∧
    (r.status ≠ 401 → r.status ≠ 429 → r.status ≠ 200 →
      generate_command model provider r
        = .error (.providerError r.status (r.errorMessage.getD ""))) := by
  intro model provider r
  refine ⟨?_, ?_, ?_, ?_⟩
  · intro h1 h2; simp [generate_command, h1, h2]
  · intro h1 h2; simp [generate_command, h1, h2]
  · intro h1; simp [generate_command, h1]
  · intro h1 h2 h3; simp [generate_command, h1, h2, h3]

/-- C3 (witness): the four classification cases at concrete responses. -/
theorem C3_status_mapping_witness :
    generate_command "llama-3.3-70b-versatile" "groq"
        ⟨401, some "This MODEL is not on your tier", none⟩
      = .error (.modelNotEntitled "llama-3.3-70b-versatile" "groq") ∧
    generate_command "llama-3.3-70b-versatile" "groq" ⟨401, none, none⟩
      = .error .invalidCredential ∧
    generate_command "llama-3.3-70b-versatile" "groq" ⟨429, none, none⟩
      = .error .rateLimited ∧
    generate_command "llama-3.3-70b-versatile" "groq" ⟨500, some "boom", none⟩
      = .error (.providerError 500 "boom") := by
  refine ⟨(C3_status_mapping _ _ _).1 rfl (by decide),
          (C3_status_mapping _ _ _).2.1 rfl (by decide),
          (C3_status_mapping _ _ _).2.2.1 rfl,
          (C3_status_mapping _ _ _).2.2.2 (by decide) (by decide) (by decide)⟩

/-- C7: a 200-status response whose extracted content sanitizes to the
empty string raises the empty-response error, and `generate_command` never
returns a blank command. -/
theorem C7_empty_guard : ∀ (model provider : String) (em : Option String)
    (content : String),
    (clean_response content = "" →
      generate_command model provider ⟨200, em, some content⟩
        = .error .emptyResponse) ∧
    (∀ (r : HttpResponse) (cmd : String),
      generate_command model provider r = .ok cmd → cmd ≠ "") := by
  intro model provider em content
  constructor
  · intro h; simp [generate_command, h]
  · intro r cmd h hz
    subst hz
    simp only [generate_command] at h
    split at h
    · split at h <;> exact Except.noConfusion h
    · split at h
      · exact Except.noConfusion h
      · split at h
        · exact Except.noConfusion h
        · split at h
          · exact Except.noConfusion h
          · split at h
            · exact Except.noConfusion h
            · next hne =>
                injection h with h'
                exact hne h'

/-- C7 (witness): a 200 response whose content is a bare fence sanitizes
to empty and raises the empty-response error; a 200 response returning
`ls` yields a non-blank command. -/
theorem C7_empty_guard_witness :
    generate_command "m" "groq" ⟨200, none, some "```"⟩
      = .error .emptyResponse ∧
    ("ls" : String) ≠ "" := by
  refine ⟨(C7_empty_guard "m" "groq" none "```").1 (by decide),
          (C7_empty_guard "m" "groq" none "```").2 ⟨200, none, some "ls"⟩ "ls"
            rfl⟩

/-- C8 (counterexample): when the SHELL environment variable is absent but
COMSPEC is present, the collector uses COMSPEC's value, not the literal
`unknown`. -/
theorem C8_comspec_cx :
    (fun k => if k = "COMSPEC" then some "cmd.exe" else none :
      String → Option String) "SHELL" = none ∧
    (get_context ⟨fun k => if k = "COMSPEC" then some "cmd.exe" else none,
        "Windows", "10", "C:"⟩).shell = "cmd.exe" ∧
    ("cmd.exe" : String) ≠ "unknown" := by
  decide

/-- C8 (amended): the context collector is a total function of the ambient
state; the shell value is SHELL when present, else COMSPEC when present,
and the literal `unknown` only when both are absent. -/
theorem C8_shell_fallback : ∀ se : SysEnv,
    (se.envVar "SHELL" = none → se.envVar "COMSPEC" = none →
      (get_context se).shell = "unknown") ∧
    (∀ v, se.envVar "SHELL" = none → se.envVar "COMSPEC" = some v →
      (get_context se).shell = v) ∧
    (∀ v, se.envVar "SHELL" = some v → (get_context se).shell = v) := by
  intro se
  refine ⟨?_, ?_, ?_⟩ <;> intros <;> simp [get_context, *]

/-- C8 (witness): the three shell-resolution cases at concrete
environments. -/
theorem C8_shell_fallback_witness :
    (get_context ⟨fun _ => none, "Linux", "6.1", "/root"⟩).shell = "unknown" ∧
    (get_context ⟨fun k => if k = "COMSPEC" then some "C:\\cmd.exe" else none,
        "Windows", "10", "C:"⟩).shell = "C:\\cmd.exe" ∧
    (get_context ⟨fun k => if k = "SHELL" then some "/bin/zsh" else none,
        "Linux", "6.1", "/root"⟩).shell = "/bin/zsh" := by
  refine ⟨(C8_shell_fallback _).1 rfl rfl,
          (C8_shell_fallback _).2.1 "C:\\cmd.exe" (by decide) (by decide),
          (C8_shell_fallback _).2.2 "/bin/zsh" (by decide)⟩

/-- C6 (counterexample): the input `YES` is non-empty, differs from all
four listed inputs, yet routes to the affirmative branch (the code lowers
the stripped answer before comparing). -/
theorem C6_case_variant_cx :
    isAffirmative "YES" = true ∧
    ("YES" : String) ≠ "" ∧ ("YES" : String) ≠ "y" ∧
    ("YES" : String) ≠ "Y" ∧ ("YES" : String) ≠ "yes" := by
  decide

/-- C6 (amended): the empty string, `y`, `Y` and `yes` all route to the
affirmative branch, and in general an input is affirmative exactly when
its whitespace-stripped, lowercased form is empty, `y`, or `yes`; all
other inputs route to cancellation. -/
theorem C6_affirmative_set : ∀ raw : String,
    (isAffirmative raw = true ↔
      confirmAnswer raw ∈ (["", "y", "yes"] : List String)) ∧
    (isAffirmative "" = true ∧ isAffirmative "y" = true ∧
     isAffirmative "Y" = true ∧ isAffirmative "yes" = true) := by
  intro raw
  constructor
  · simp [isAffirmative, or_assoc]
  · exact ⟨by decide, by decide, by decide, by decide⟩

/-- C4: exit status after the confirmation prompt — 0 when the prompt is
ended by an interrupt or end-of-input, 1 for an explicit negative answer,
and 130 when an interrupt is raised during subprocess execution of the
confirmed command. -/
theorem C4_exit_codes : ∀ (e : Env) (cmd raw : String)
    (sp : SubprocessOutcome),
    (main_confirm e cmd .interrupt sp).2 = 0 ∧
    (isAffirmative raw = false → (main_confirm e cmd (.answer raw) sp).2 = 1) ∧
    (isAffirmative raw = true → e.tmpIsDir = false →
      (main_confirm e cmd (.answer raw) .interrupted).2 = 130) := by
  intro e cmd raw sp
  refine ⟨rfl, ?_, ?_⟩
  · intro h; simp [main_confirm, h]
  · intro h ht
    simp [main_confirm, h, has_shell_wrapper, ht, run_directly]

/-- C4 (witness): the three exit-status cases at concrete inputs. -/
theorem C4_exit_codes_witness :
    (main_confirm ⟨true, 1, true, true⟩ "ls -la" .interrupt (.exited 0)).2 = 0 ∧
    (main_confirm ⟨true, 1, true, true⟩ "ls -la" (.answer "n") (.exited 0)).2 = 1 ∧
    (main_confirm ⟨false, 1, true, true⟩ "ls -la" (.answer "") .interrupted).2
      = 130 := by
  refine ⟨(C4_exit_codes ⟨true, 1, true, true⟩ "ls -la" "n" (.exited 0)).1,
          (C4_exit_codes ⟨true, 1, true, true⟩ "ls -la" "n" (.exited 0)).2.1
            (by decide),
          (C4_exit_codes ⟨false, 1, true, true⟩ "ls -la" "" .interrupted).2.2
            (by decide) rfl⟩

/-- C5 (counterexample): when the prompt is cancelled by an interrupt or
end-of-input, the four display lines are not erased — the trace is the
four lines followed by a bare newline, with no line-clearing effect. -/
theorem C5_no_erase_on_interrupt_cx :
    (main_confirm ⟨true, 4321, true, true⟩ "ls -la" .interrupt (.exited 0)).1
      = displayLines "ls -la" ++ [Effect.out ""] ∧
    ((main_confirm ⟨true, 4321, true, true⟩ "ls -la" .interrupt
        (.exited 0)).1.any isClearEff) = false := by
  exact ⟨rfl, rfl⟩

/-- C5 (amended): exactly four lines (blank, indented command, blank,
prompt) are emitted between generation and the confirmation answer; on the
answered resolutions — confirmed or explicitly declined — those four lines
are erased before any further effect, but on interrupt/end-of-input
cancellation no erasure happens: a newline is printed and the process
exits. -/
theorem C5_display_lines : ∀ (e : Env) (cmd raw : String)
    (sp : SubprocessOutcome),
    (main_confirm e cmd (.answer raw) sp).1.take 4 = displayLines cmd ∧
    (main_confirm e cmd .interrupt sp).1.take 4 = displayLines cmd ∧
    ((main_confirm e cmd (.answer raw) sp).1.drop 4).take 1
      = [Effect.clear 4] ∧
    (main_confirm e cmd .interrupt sp).1 = displayLines cmd ++ [Effect.out ""] ∧
    ((main_confirm e cmd .interrupt sp).1.any isClearEff) = false := by
  intro e cmd raw sp
  refine ⟨?_, rfl, ?_, rfl, ?_⟩
  · by_cases h : isAffirmative raw <;>
      by_cases ht : has_shell_wrapper e <;>
        simp [main_confirm, h, ht, displayLines]
  · by_cases h : isAffirmative raw <;>
      by_cases ht : has_shell_wrapper e <;>
        simp [main_confirm, h, ht, displayLines]
  · simp [main_confirm, displayLines, isClearEff]

/-- C1 (counterexample): with the wrapper check failing (`/tmp` not a
directory), a confirmed command, and a writable history file available in
the environment, the code spawns the subprocess and exits with its code
but appends nothing to any shell history file — no history-append effect
appears in the trace. -/
theorem C1_no_history_cx :
    ((main_confirm ⟨false, 4321, true, true⟩ "ls -la" (.answer "")
        (.exited 0)).1.any isHistAppend) = false ∧
    Effect.spawn "ls -la" ∈
      (main_confirm ⟨false, 4321, true, true⟩ "ls -la" (.answer "")
        (.exited 0)).1 ∧
    (main_confirm ⟨false, 4321, true, true⟩ "ls -la" (.answer "")
        (.exited 0)).2 = 0 ∧
    isAffirmative "" = true ∧
    has_shell_wrapper ⟨false, 4321, true, true⟩ = false ∧
    Env.historyWritable ⟨false, 4321, true, true⟩ = true := by
  decide

/-- C1 (amended): when the user confirms and the wrapper check fails
(`/tmp` is not a directory), the program executes the command in a
subprocess inheriting the current working directory and exits with the
subprocess's exit code; no shell-history append is performed on any path —
the code has no direct-history-append strategy. -/
theorem C1_direct_fallback : ∀ (e : Env) (cmd raw : String) (c : Int),
    isAffirmative raw = true → e.tmpIsDir = false →
    main_confirm e cmd (.answer raw) (.exited c)
      = (displayLines cmd ++ [Effect.clear 4, Effect.spawn cmd], c) ∧
    (∀ (pr : PromptResult) (sp : SubprocessOutcome),
      ((main_confirm e cmd pr sp).1.any isHistAppend) = false) := by
  intro e cmd raw c h ht
  constructor
  · simp [main_confirm, h, has_shell_wrapper, ht, run_directly]
  · intro pr sp
    cases pr with
    | interrupt => simp [main_confirm, displayLines, isHistAppend]
    | answer r =>
      by_cases h2 : isAffirmative r <;>
        by_cases h3 : has_shell_wrapper e <;>
          cases sp <;>
            simp [main_confirm, h2, h3, displayLines, write_cmd_file,
              run_directly, isHistAppend]

/-- C1 (witness): the amended fallback behaviour at a concrete
environment, command, and subprocess exit code. -/
theorem C1_direct_fallback_witness :
    main_confirm ⟨false, 99, true, true⟩ "ls -la" (.answer "y") (.exited 7)
      = (displayLines "ls -la" ++ [Effect.clear 4, Effect.spawn "ls -la"], 7) ∧
    ((main_confirm ⟨false, 99, true, true⟩ "ls -la" .interrupt
        (.exited 7)).1.any isHistAppend) = false := by
  have h := C1_direct_fallback ⟨false, 99, true, true⟩ "ls -la" "y" 7
    (by decide) rfl
  exact ⟨h.1, h.2 .interrupt (.exited 7)⟩

/-- C10: the wrapper check tests only whether `/tmp` is a directory; when
the confirmation is affirmative and `/tmp` is a directory, the sanitized
command is written to the pid-keyed temp file and the process exits 0
without spawning any subprocess (whether or not the write succeeds); the
direct-subprocess path is taken only when `/tmp` is not a directory. -/
theorem C10_wrapper_dispatch : ∀ (e : Env) (cmd raw : String)
    (sp : SubprocessOutcome),
    has_shell_wrapper e = e.tmpIsDir ∧
    (isAffirmative raw = true → e.tmpIsDir = true →
      main_confirm e cmd (.answer raw) sp
        = (displayLines cmd ++
            [Effect.clear 4,
             Effect.cmdFileWrite ("/tmp/.vox_cmd_" ++ toString e.ppid) cmd
               e.writeOk], 0)) ∧
    (isAffirmative raw = true → e.tmpIsDir = false →
      (main_confirm e cmd (.answer raw) sp).1
        = displayLines cmd ++ [Effect.clear 4] ++ (run_directly cmd sp).1 ∧
      Effect.spawn cmd ∈ (main_confirm e cmd (.answer raw) sp).1) := by
  intro e cmd raw sp
  refine ⟨rfl, ?_, ?_⟩
  · intro h ht
    simp [main_confirm, h, has_shell_wrapper, ht, write_cmd_file, get_cmd_file]
  · intro h ht
    constructor
    · simp [main_confirm, h, has_shell_wrapper, ht]
    · cases sp <;>
        simp [main_confirm, h, has_shell_wrapper, ht, run_directly,
          displayLines]

/-- C10 (witness): the wrapper-handoff trace at a concrete environment
(including a failing write, which still exits 0), and the subprocess
effect when `/tmp` is absent. -/
theorem C10_wrapper_dispatch_witness :
    main_confirm ⟨true, 7, false, true⟩ "ls -la" (.answer "") (.exited 5)
      = (displayLines "ls -la" ++
          [Effect.clear 4,
           Effect.cmdFileWrite ("/tmp/.vox_cmd_" ++ toString (7 : Nat))
             "ls -la" false], 0) ∧
    Effect.spawn "ls -la" ∈
      (main_confirm ⟨false, 8, true, true⟩ "ls -la" (.answer "")
        (.exited 5)).1 := by
  refine ⟨(C10_wrapper_dispatch ⟨true, 7, false, true⟩ "ls -la" ""
            (.exited 5)).2.1 (by decide) rfl,
          ((C10_wrapper_dispatch ⟨false, 8, true, true⟩ "ls -la" ""
            (.exited 5)).2.2 (by decide) rfl).2⟩
